import Mathlib

/-!
Verification of the mautrix-slack remote-session adapter
(`pkg/connector/handleslack.go`, `pkg/connector/handlematrix.go`).

Go strings are modelled as Lean `String` wherever only equality and
concatenation matter; the identifier codec works on `List Char` so that the
structural delimiter logic is explicit.
-/

namespace SlackBridge

/-- Modelled from the spec: the identifier codec (package `slackid`, whose
source is not included; only its callers are). Portal identifiers are built
deterministically from the team id and channel id, joined by a structural
delimiter (`encodePortal(team, channel) -> id`). -/
def encodePortal (team channel : List Char) : List Char :=
  team ++ '-' :: channel

/-- Modelled from the spec: user identifiers embed the team id plus the user
id, analogous to `encodePortal`. -/
def encodeUser (team user : List Char) : List Char :=
  team ++ '-' :: user

/-- Modelled from the spec: message identifiers embed the team id, channel id
and remote timestamp string (fixed-point decimal, preserved bit-for-bit as the
original characters). -/
def encodeMessage (team channel ts : List Char) : List Char :=
  team ++ '-' :: channel ++ '-' :: ts

/-- Modelled from the spec: emoji identifiers embed the team id plus the emoji
name, analogous to `encodePortal`. -/
def encodeEmoji (team name : List Char) : List Char :=
  team ++ '-' :: name

/-- Splits an identifier at its first structural delimiter. Returns `none`
when the string was not produced by an encoder (no delimiter present), which
models the `MalformedIdentifier` condition. -/
def splitFirstDash : List Char → Option (List Char × List Char)
  | [] => none
  | c :: rest =>
    if c = '-' then some ([], rest)
    else
      match splitFirstDash rest with
      | some (a, b) => some (c :: a, b)
      | none => none

/-- Modelled from the spec: `decodePortal(id) -> (team, channel)`, failing on
strings without the structural delimiter. -/
def decodePortal (id : List Char) : Option (List Char × List Char) :=
  splitFirstDash id

/-- Modelled from the spec: user identifier decoder. -/
def decodeUser (id : List Char) : Option (List Char × List Char) :=
  splitFirstDash id

/-- Modelled from the spec: message identifier decoder, recovering the
(team, channel, timestamp) triple. -/
def decodeMessage (id : List Char) : Option (List Char × List Char × List Char) :=
  match splitFirstDash id with
  | none => none
  | some (team, rest) =>
    match splitFirstDash rest with
    | none => none
    | some (channel, ts) => some (team, channel, ts)

/-- Modelled from the spec: emoji identifier decoder. -/
def decodeEmoji (id : List Char) : Option (List Char × List Char) :=
  splitFirstDash id

/-- Well-formedness of a remote-native field: non-empty and free of the
structural delimiter (Slack team/channel/user ids and timestamps never contain
a dash). -/
def wfField (s : List Char) : Bool :=
  !s.isEmpty && !s.contains '-'

theorem wfField_not_mem {s : List Char} (h : wfField s = true) : '-' ∉ s := by
  intro hmem
  simp [wfField, List.contains] at h
  exact h.2 hmem

theorem splitFirstDash_append (a b : List Char) (h : '-' ∉ a) :
    splitFirstDash (a ++ '-' :: b) = some (a, b) := by
  induction a with
  | nil => simp [splitFirstDash]
  | cons c a ih =>
    have hc : c ≠ '-' := by
      intro hc
      exact h (by simp [hc])
    have ha : '-' ∉ a := by
      intro hmem
      exact h (by simp [hmem])
    simp only [List.cons_append, splitFirstDash, if_neg hc]
    rw [List.append_eq, ih ha]

/-- C1: decoding an encoded identifier recovers the exact original tuple, for
the portal, user, message and emoji codecs, on all well-formed inputs. -/
theorem codec_roundtrip (t c u ts e : List Char)
    (ht : wfField t = true) (hc : wfField c = true) (hu : wfField u = true)
    (hts : wfField ts = true) (he : wfField e = true) :
    decodePortal (encodePortal t c) = some (t, c) ∧
    decodeUser (encodeUser t u) = some (t, u) ∧
    decodeMessage (encodeMessage t c ts) = some (t, c, ts) ∧
    decodeEmoji (encodeEmoji t e) = some (t, e) := by
  have hT := wfField_not_mem ht
  have hC := wfField_not_mem hc
  refine ⟨?_, ?_, ?_, ?_⟩
  · exact splitFirstDash_append t c hT
  · exact splitFirstDash_append t u hT
  · unfold decodeMessage encodeMessage
    have hassoc : t ++ '-' :: c ++ '-' :: ts = t ++ '-' :: (c ++ '-' :: ts) := by simp
    rw [hassoc, splitFirstDash_append t (c ++ '-' :: ts) hT]
    dsimp only
    rw [splitFirstDash_append c ts hC]
  · exact splitFirstDash_append t e hT

/-- Concrete instantiation of `codec_roundtrip` at team `T1`, channel `C1`,
user `U1`, timestamp `1.2`, emoji `wave`. -/
theorem codec_roundtrip_witness :
    decodePortal (encodePortal "T1".toList "C1".toList) = some ("T1".toList, "C1".toList) ∧
    decodeUser (encodeUser "T1".toList "U1".toList) = some ("T1".toList, "U1".toList) ∧
    decodeMessage (encodeMessage "T1".toList "C1".toList "1.2".toList) =
      some ("T1".toList, "C1".toList, "1.2".toList) ∧
    decodeEmoji (encodeEmoji "T1".toList "wave".toList) = some ("T1".toList, "wave".toList) :=
  codec_roundtrip "T1".toList "C1".toList "U1".toList "1.2".toList "wave".toList
    (by decide) (by decide) (by decide) (by decide) (by decide)

/-! ### String-level codec wrappers used by the connector

`slackid.MakePortalID`, `ParsePortalID`, `MakeUserID`, `MakeMessageID` and
`ParseMessageID` are callers-only in the analyzed tree, so they are modelled
from the spec on top of the codec above. -/

/-- Modelled from the spec: `slackid.MakePortalID(team, channel)`. -/
def MakePortalID (team channel : String) : String :=
  String.mk (encodePortal team.toList channel.toList)

/-- Modelled from the spec: `slackid.ParsePortalID`, returning empty strings
when the identifier is not a channel portal id (team-level portal ids carry no
delimiter). -/
def ParsePortalID (portalID : String) : String × String :=
  match decodePortal portalID.toList with
  | some (t, c) => (String.mk t, String.mk c)
  | none => ("", "")

/-- Modelled from the spec: `slackid.MakeUserID(team, user)`. -/
def MakeUserID (team user : String) : String :=
  String.mk (encodeUser team.toList user.toList)

/-- Modelled from the spec: `slackid.MakeMessageID(team, channel, timestamp)`. -/
def MakeMessageID (team channel ts : String) : String :=
  String.mk (encodeMessage team.toList channel.toList ts.toList)

/-- Modelled from the spec: `slackid.ParseMessageID`, recovering the
(team, channel, timestamp) triple or failing on malformed input. -/
def ParseMessageID (id : String) : Option (String × String × String) :=
  match decodeMessage id.toList with
  | some (t, c, ts) => some (String.mk t, String.mk c, String.mk ts)
  | none => none

/-! ### Session state and the Slack event handler (`handleslack.go`) -/

/-- Bridge connectivity state events (`status.StateEvent` values used by the
connector). -/
inductive StateEvent
  | connecting
  | connected
  | badCredentials
  | unknownError
deriving DecidableEq, Repr

/-- A bridge status report (`status.BridgeState`): state event plus error code
and human-readable message. -/
structure BridgeState where
  stateEvent : StateEvent
  error : String := ""
  message : String := ""
deriving DecidableEq, Repr

/-- The per-login session state of `SlackClient`. `clientConnected` models
`Client != nil` and `rtmConnected` models `RTM != nil`; `token` and
`cookieToken` model the credential extras stored on the user login record.
`isRealUser` is modelled from the spec: the flag saying whether the session
represents a real (non-puppet) remote identity (its definition is outside the
analyzed files; only its uses are included). -/
structure SlackClientState where
  userID : String
  teamID : String
  loginID : String
  clientConnected : Bool
  rtmConnected : Bool
  token : String
  cookieToken : String
  isRealUser : Bool
deriving DecidableEq, Repr

/-- `SlackClient.Disconnect`: tears down the RTM handle and clears the client
handle (errors from the remote disconnect are logged only). -/
def Disconnect (s : SlackClientState) : SlackClientState :=
  { s with rtmConnected := false, clientConnected := false }

/-- `SlackClient.invalidateSession`: clears the stored token and cookie-token
secrets, saves the login (persistence errors are logged only), disconnects the
handles, and sends exactly the given terminal bridge state. -/
def invalidateSession (s : SlackClientState) (state : BridgeState) :
    SlackClientState × List BridgeState :=
  (Disconnect { s with token := "", cookieToken := "" }, [state])

/-- The raw Slack RTM events distinguished by the `HandleSlackEvent` switch.
The chat-event group (message, reaction, typing, marked, membership, channel
update) is collapsed into one constructor carrying the wrapped result

abstractly, since translation itself is covered by other definitions. -/
inductive RawSlackEvent
  | connectingEvent (attempt connectionCount : Nat)
  | connectedEvent (teamID userID : String)
  | helloEvent
  | invalidAuthEvent
  | rtmError (code : Nat) (msg : String)
  | chatEvent
  | emojiChanged
  | ignoredFileEvent
  | unrecognized
deriving DecidableEq, Repr

/-- Result of `wrapEvent` for a chat-group event, supplied by the environment:
either a wrapped remote event (queued) or a wrap error (logged only). -/
structure HandleEnv where
  wrapResult : Except String Nat

/-- `SlackClient.HandleSlackEvent`: the top-level switch over raw RTM events.
Returns the updated session state, the bridge states sent, and the normalized
remote events queued (`QueueRemoteEvent`), identified abstractly by the
wrapped value. -/
def HandleSlackEvent (env : HandleEnv) (s : SlackClientState) (evt : RawSlackEvent) :
    SlackClientState × List BridgeState × List Nat :=
  match evt with
  | .connectingEvent _ _ =>
    (s, [{ stateEvent := .connecting }], [])
  | .connectedEvent evtTeamID evtUserID =>
    if evtTeamID ≠ s.teamID ∨ evtUserID ≠ s.userID then
      let r := invalidateSession s { stateEvent := .unknownError, error := "slack-id-mismatch" }
      (r.1, r.2, [])
    else
      (s, [{ stateEvent := .connected }], [])
  | .helloEvent => (s, [], [])
  | .invalidAuthEvent =>
    let r := invalidateSession s { stateEvent := .badCredentials, error := "slack-invalid-auth" }
    (r.1, r.2, [])
  | .rtmError code msg =>
    (s, [{ stateEvent := .unknownError,
           error := "slack-rtm-error-" ++ toString code,
           message := toString code ++ ": " ++ msg }], [])
  | .chatEvent =>
    match env.wrapResult with
    | .ok wrapped => (s, [], [wrapped])
    | .error _ => (s, [], [])
  | .emojiChanged => (s, [], [])
  | .ignoredFileEvent => (s, [], [])
  | .unrecognized => (s, [], [])

/-- C2: on a connected acknowledgement reporting a team or user id different
from the session's own, or on an invalid-auth stream signal, the session is
invalidated: both credential secrets are cleared, the client and RTM handles
are torn down, exactly one terminal status (identity-mismatch class or
bad-credentials class respectively) is emitted, and no normalized chat event
is queued. -/
theorem session_invalidation_on_identity_mismatch_or_invalid_auth
    (env : HandleEnv) (s : SlackClientState) (evt : RawSlackEvent)
    (h : (∃ t u, evt = .connectedEvent t u ∧ (t ≠ s.teamID ∨ u ≠ s.userID)) ∨
      evt = .invalidAuthEvent) :
    (HandleSlackEvent env s evt).1.token = "" ∧
    (HandleSlackEvent env s evt).1.cookieToken = "" ∧
    (HandleSlackEvent env s evt).1.clientConnected = false ∧
    (HandleSlackEvent env s evt).1.rtmConnected = false ∧
    ((HandleSlackEvent env s evt).2.1 =
        [{ stateEvent := .unknownError, error := "slack-id-mismatch" }] ∨
      (HandleSlackEvent env s evt).2.1 =
        [{ stateEvent := .badCredentials, error := "slack-invalid-auth" }]) ∧
    (HandleSlackEvent env s evt).2.2 = [] := by
  rcases h with ⟨t, u, rfl, hmis⟩ | rfl
  · simp [HandleSlackEvent, if_pos hmis, invalidateSession, Disconnect]
  · simp [HandleSlackEvent, invalidateSession, Disconnect]

/-- Concrete instantiation of the session-invalidation theorem: an
invalid-auth event on a live session. -/
theorem session_invalidation_witness :
    (HandleSlackEvent ⟨.ok 0⟩
        { userID := "U1", teamID := "T1", loginID := "T1-U1", clientConnected := true,
          rtmConnected := true, token := "xoxc-1", cookieToken := "d-1", isRealUser := true }
        .invalidAuthEvent).1.token = "" ∧
    (HandleSlackEvent ⟨.ok 0⟩
        { userID := "U1", teamID := "T1", loginID := "T1-U1", clientConnected := true,
          rtmConnected := true, token := "xoxc-1", cookieToken := "d-1", isRealUser := true }
        .invalidAuthEvent).1.cookieToken = "" ∧
    (HandleSlackEvent ⟨.ok 0⟩
        { userID := "U1", teamID := "T1", loginID := "T1-U1", clientConnected := true,
          rtmConnected := true, token := "xoxc-1", cookieToken := "d-1", isRealUser := true }
        .invalidAuthEvent).1.clientConnected = false ∧
    (HandleSlackEvent ⟨.ok 0⟩
        { userID := "U1", teamID := "T1", loginID := "T1-U1", clientConnected := true,
          rtmConnected := true, token := "xoxc-1", cookieToken := "d-1", isRealUser := true }
        .invalidAuthEvent).1.rtmConnected = false ∧
    ((HandleSlackEvent ⟨.ok 0⟩
        { userID := "U1", teamID := "T1", loginID := "T1-U1", clientConnected := true,
          rtmConnected := true, token := "xoxc-1", cookieToken := "d-1", isRealUser := true }
        .invalidAuthEvent).2.1 =
        [{ stateEvent := .unknownError, error := "slack-id-mismatch" }] ∨
      (HandleSlackEvent ⟨.ok 0⟩
        { userID := "U1", teamID := "T1", loginID := "T1-U1", clientConnected := true,
          rtmConnected := true, token := "xoxc-1", cookieToken := "d-1", isRealUser := true }
        .invalidAuthEvent).2.1 =
        [{ stateEvent := .badCredentials, error := "slack-invalid-auth" }]) ∧
    (HandleSlackEvent ⟨.ok 0⟩
        { userID := "U1", teamID := "T1", loginID := "T1-U1", clientConnected := true,
          rtmConnected := true, token := "xoxc-1", cookieToken := "d-1", isRealUser := true }
        .invalidAuthEvent).2.2 = [] :=
  session_invalidation_on_identity_mismatch_or_invalid_auth ⟨.ok 0⟩
    { userID := "U1", teamID := "T1", loginID := "T1-U1", clientConnected := true,
      rtmConnected := true, token := "xoxc-1", cookieToken := "d-1", isRealUser := true }
    .invalidAuthEvent (Or.inr rfl)

/-! ### Outbound dispatch (`handlematrix.go`) -/

/-- A structured message post request (`conv.SendReq`), opaque payload. -/
structure SendReq where
  data : String
deriving DecidableEq, Repr

/-- A file upload request (`conv.FileUpload`), opaque payload. -/
structure FileUpload where
  data : String
deriving DecidableEq, Repr

/-- A share-by-reference request (`conv.FileShare`), opaque payload. -/
structure FileShare where
  data : String
deriving DecidableEq, Repr

/-- The converted outbound payload produced by the external content converter
(`msgconv.ConvertedSlackMessage`): at most one of the three action fields is
meant to be present. -/
structure ConvertedSlackMessage where
  sendReq : Option SendReq
  fileUpload : Option FileUpload
  fileShare : Option FileShare
deriving DecidableEq, Repr

/-- One channel share record (`slack.ShareFileInfo`); only the message
timestamp field is consumed by the dispatcher. -/
structure ShareFileInfo where
  ts : String
deriving DecidableEq, Repr

/-- The file object returned by the upload API (`slack.File`): id plus the
private and public share maps, modelled as association lists from channel id
to share-record lists. -/
structure SlackFile where
  id : String
  sharesPriv : List (String × List ShareFileInfo)
  sharesPub : List (String × List ShareFileInfo)
deriving DecidableEq, Repr

/-- Association-list lookup modelling a Go map access `m[k]` with its `found`
flag (`none` = not found). -/
def lookupAssoc {α : Type} (m : List (String × α)) (k : String) : Option α :=
  match m with
  | [] => none
  | (k2, v) :: rest => if k2 = k then some v else lookupAssoc rest k

/-- The share-record resolution inside the file-upload branch of
`sendToSlack`: take `file.Shares.Private[channelID][0]` when that entry is
found and non-empty, else `file.Shares.Public[channelID][0]` when found and
non-empty, else the zero-value share info (empty timestamp). -/
def resolveShareInfo (file : SlackFile) (channelID : String) : ShareFileInfo :=
  match lookupAssoc file.sharesPriv channelID with
  | some (info :: _) => info
  | _ =>
    match lookupAssoc file.sharesPub channelID with
    | some (info :: _) => info
    | _ => { ts := "" }

/-- The remote API calls the outbound dispatcher can issue. -/
inductive RemoteCall
  | postMessage (channelID : String) (req : SendReq)
  | uploadFile (upload : FileUpload)
  | shareFile (share : FileShare)
deriving DecidableEq, Repr

/-- Responses of the remote Slack API consumed by `sendToSlack`, supplied by
the environment: `postMessage` and `shareFile` return a message timestamp,
`uploadFile` returns the file object. `error` carries the Go error string. -/
structure SlackAPI where
  postMessage : String → SendReq → Except String String
  uploadFile : FileUpload → Except String SlackFile
  shareFile : FileShare → Except String String

/-- `SlackClient.sendToSlack`: dispatches a converted payload to exactly one
remote action in fixed priority order (post request, then file upload, then
file share), returning the trace of remote calls issued, the pending
transactions recorded via `AddPendingToSave` (only when a message context is
present, `hasMsg`), and the Go result `(timestamp, error)` as an `Except`. -/
def sendToSlack (api : SlackAPI) (userID channelID : String)
    (conv : ConvertedSlackMessage) (hasMsg : Bool) :
    List RemoteCall × List String × Except String String :=
  match conv.sendReq with
  | some req =>
    ([.postMessage channelID req], [], api.postMessage channelID req)
  | none =>
    match conv.fileUpload with
    | some upload =>
      match api.uploadFile upload with
      | .error e => ([.uploadFile upload], [], .error e)
      | .ok file =>
        let shareInfo := resolveShareInfo file channelID
        if shareInfo.ts ≠ "" then
          ([.uploadFile upload], [], .ok shareInfo.ts)
        else
          ([.uploadFile upload],
            if hasMsg then [userID ++ ":" ++ file.id] else [],
            .ok "")
    | none =>
      match conv.fileShare with
      | some share =>
        match api.shareFile share with
        | .error e => ([.shareFile share], [], .error e)
        | .ok fileMsgTS => ([.shareFile share], [], .ok fileMsgTS)
      | none => ([], [], .error "no message or attachment to send")

/-- C3: the dispatcher performs exactly one remote action, chosen by fixed
priority (post request over file upload over file share), and with none of the
three present it fails with the no-payload error without issuing any remote
call. -/
theorem sendToSlack_dispatch_priority (api : SlackAPI) (userID channelID : String)
    (conv : ConvertedSlackMessage) (hasMsg : Bool) :
    (∀ req, conv.sendReq = some req →
      (sendToSlack api userID channelID conv hasMsg).1 = [.postMessage channelID req]) ∧
    (∀ upload, conv.sendReq = none → conv.fileUpload = some upload →
      (sendToSlack api userID channelID conv hasMsg).1 = [.uploadFile upload]) ∧
    (∀ share, conv.sendReq = none → conv.fileUpload = none → conv.fileShare = some share →
      (sendToSlack api userID channelID conv hasMsg).1 = [.shareFile share]) ∧
    (conv.sendReq = none → conv.fileUpload = none → conv.fileShare = none →
      (sendToSlack api userID channelID conv hasMsg).1 = [] ∧
      (sendToSlack api userID channelID conv hasMsg).2.2 =
        .error "no message or attachment to send") ∧
    (sendToSlack api userID channelID conv hasMsg).1.length ≤ 1 := by
  refine ⟨?_, ?_, ?_, ?_, ?_⟩
  · intro req hreq
    simp [sendToSlack, hreq]
  · intro upload h1 h2
    simp only [sendToSlack, h1, h2]
    rcases api.uploadFile upload with e | file
    · rfl
    · by_cases hts : (resolveShareInfo file channelID).ts ≠ ""
      · simp [hts]
      · simp [hts]
  · intro share h1 h2 h3
    simp only [sendToSlack, h1, h2, h3]
    rcases api.shareFile share with e | ts2 <;> rfl
  · intro h1 h2 h3
    simp [sendToSlack, h1, h2, h3]
  · rcases hreq : conv.sendReq with _ | req
    · rcases hup : conv.fileUpload with _ | upload
      · rcases hsh : conv.fileShare with _ | share
        · simp [sendToSlack, hreq, hup, hsh]
        · simp only [sendToSlack, hreq, hup, hsh]
          rcases api.shareFile share with e | ts2 <;> simp
      · simp only [sendToSlack, hreq, hup]
        rcases api.uploadFile upload with e | file
        · simp
        · by_cases hts : (resolveShareInfo file channelID).ts ≠ "" <;> simp [hts]
    · simp [sendToSlack, hreq]

/-- A fixed remote API environment used by concrete instantiations. -/
def apiStub : SlackAPI where
  postMessage := fun _ _ => .ok "1700000000.000100"
  uploadFile := fun _ => .ok { id := "F1", sharesPriv := [], sharesPub := [] }
  shareFile := fun _ => .ok "1700000000.000200"

/-- Concrete instantiation of the dispatch-priority theorem at a payload
containing only a post request. -/
theorem sendToSlack_dispatch_priority_witness :
    (∀ req, (ConvertedSlackMessage.mk (some ⟨"hi"⟩) none none).sendReq = some req →
      (sendToSlack apiStub "U1" "C1" (ConvertedSlackMessage.mk (some ⟨"hi"⟩) none none) true).1 =
        [.postMessage "C1" req]) ∧
    (∀ upload, (ConvertedSlackMessage.mk (some ⟨"hi"⟩) none none).sendReq = none →
      (ConvertedSlackMessage.mk (some ⟨"hi"⟩) none none).fileUpload = some upload →
      (sendToSlack apiStub "U1" "C1" (ConvertedSlackMessage.mk (some ⟨"hi"⟩) none none) true).1 =
        [.uploadFile upload]) ∧
    (∀ share, (ConvertedSlackMessage.mk (some ⟨"hi"⟩) none none).sendReq = none →
      (ConvertedSlackMessage.mk (some ⟨"hi"⟩) none none).fileUpload = none →
      (ConvertedSlackMessage.mk (some ⟨"hi"⟩) none none).fileShare = some share →
      (sendToSlack apiStub "U1" "C1" (ConvertedSlackMessage.mk (some ⟨"hi"⟩) none none) true).1 =
        [.shareFile share]) ∧
    ((ConvertedSlackMessage.mk (some ⟨"hi"⟩) none none).sendReq = none →
      (ConvertedSlackMessage.mk (some ⟨"hi"⟩) none none).fileUpload = none →
      (ConvertedSlackMessage.mk (some ⟨"hi"⟩) none none).fileShare = none →
      (sendToSlack apiStub "U1" "C1" (ConvertedSlackMessage.mk (some ⟨"hi"⟩) none none) true).1 = [] ∧
      (sendToSlack apiStub "U1" "C1" (ConvertedSlackMessage.mk (some ⟨"hi"⟩) none none) true).2.2 =
        .error "no message or attachment to send") ∧
    (sendToSlack apiStub "U1" "C1" (ConvertedSlackMessage.mk (some ⟨"hi"⟩) none none) true).1.length ≤ 1 :=
  sendToSlack_dispatch_priority apiStub "U1" "C1"
    (ConvertedSlackMessage.mk (some ⟨"hi"⟩) none none) true

/-- Errors returned by the Matrix-to-Slack handlers. `notLoggedIn` models the
`bridgev2.ErrNotLoggedIn` sentinel, `goError` models any other Go error value
by its message, and `nilClientPanic` models the runtime panic of invoking a
method on the nil client handle (no guard was present). -/
inductive OutboundError
  | notLoggedIn
  | nilClientPanic
  | goError (msg : String)
deriving DecidableEq, Repr

/-- The response of `HandleMatrixMessage` (`bridgev2.MatrixMessageResponse`):
either a pending marker or the database record of the delivered message
(identifier and sender id; the parsed timestamp is kept as its raw remote
string). -/
structure MatrixMessageResponse where
  pending : Bool
  dbMessageID : Option String
  dbSenderID : Option String
deriving DecidableEq, Repr

/-- `SlackClient.HandleMatrixMessage`: guard on the client handle, resolve the
channel id from the portal id, convert via the external content converter
(`toSlack`, supplied as its result), dispatch with `sendToSlack`, and build
the response: pending when no timestamp was produced, otherwise the database
message record. -/
def HandleMatrixMessage (api : SlackAPI) (toSlack : Except String ConvertedSlackMessage)
    (s : SlackClientState) (portalID : String) :
    List RemoteCall × List String × Except OutboundError MatrixMessageResponse :=
  if s.clientConnected = false then
    ([], [], .error .notLoggedIn)
  else
    let channelID := (ParsePortalID portalID).2
    if channelID = "" then
      ([], [], .error (.goError "invalid channel ID"))
    else
      match toSlack with
      | .error e => ([], [], .error (.goError e))
      | .ok conv =>
        let r := sendToSlack api s.userID channelID conv true
        match r.2.2 with
        | .error e => (r.1, r.2.1, .error (.goError e))
        | .ok timestamp =>
          if timestamp = "" then
            (r.1, r.2.1, .ok { pending := true, dbMessageID := none, dbSenderID := none })
          else
            (r.1, r.2.1, .ok
              { pending := false,
                dbMessageID := some (MakeMessageID s.teamID channelID timestamp),
                dbSenderID := some (MakeUserID s.teamID s.userID) })

/-- C6: in the file-upload branch the resulting timestamp comes from the
private-share records of the target channel first, then the public-share
records, taking the first found non-empty record list; when neither is
populated the call succeeds with an empty timestamp rather than an error, the
action is recorded as pending to save, and the message handler reports a
pending response. -/
theorem fileUpload_timestamp_resolution (api : SlackAPI) (s : SlackClientState)
    (portalID : String) (toSlackConv : ConvertedSlackMessage)
    (upload : FileUpload) (file : SlackFile)
    (hclient : s.clientConnected = true)
    (hch : (ParsePortalID portalID).2 ≠ "")
    (h1 : toSlackConv.sendReq = none) (h2 : toSlackConv.fileUpload = some upload)
    (hup : api.uploadFile upload = .ok file) :
    (sendToSlack api s.userID (ParsePortalID portalID).2 toSlackConv true).2.2 =
      .ok (resolveShareInfo file (ParsePortalID portalID).2).ts ∧
    (∀ info rest, lookupAssoc file.sharesPriv (ParsePortalID portalID).2 = some (info :: rest) →
      resolveShareInfo file (ParsePortalID portalID).2 = info) ∧
    ((lookupAssoc file.sharesPriv (ParsePortalID portalID).2 = none ∨
        lookupAssoc file.sharesPriv (ParsePortalID portalID).2 = some []) →
      ∀ info rest, lookupAssoc file.sharesPub (ParsePortalID portalID).2 = some (info :: rest) →
        resolveShareInfo file (ParsePortalID portalID).2 = info) ∧
    ((resolveShareInfo file (ParsePortalID portalID).2).ts = "" →
      (sendToSlack api s.userID (ParsePortalID portalID).2 toSlackConv true).2.1 =
        [s.userID ++ ":" ++ file.id] ∧
      (HandleMatrixMessage api (.ok toSlackConv) s portalID).2.2 =
        .ok { pending := true, dbMessageID := none, dbSenderID := none }) := by
  have hsend : sendToSlack api s.userID (ParsePortalID portalID).2 toSlackConv true =
      ([.uploadFile upload],
        if (resolveShareInfo file (ParsePortalID portalID).2).ts = ""
          then [s.userID ++ ":" ++ file.id] else [],
        .ok (resolveShareInfo file (ParsePortalID portalID).2).ts) := by
    simp only [sendToSlack, h1, h2, hup]
    by_cases hts : (resolveShareInfo file (ParsePortalID portalID).2).ts = ""
    · simp [hts]
    · simp [hts]
  refine ⟨?_, ?_, ?_, ?_⟩
  · rw [hsend]
  · intro info rest hpriv
    simp [resolveShareInfo, hpriv]
  · intro hprivEmpty info rest hpub
    rcases hprivEmpty with hpriv | hpriv <;> simp [resolveShareInfo, hpriv, hpub]
  · intro hts
    constructor
    · rw [hsend]
      simp [hts]
    · simp only [HandleMatrixMessage, hclient, Bool.true_eq_false, if_false, if_neg hch, hsend]
      simp [hts]

/-- Concrete instantiation of the upload-timestamp theorem: a file-only
payload whose upload result carries no share records yet, yielding a pending
response. -/
theorem fileUpload_timestamp_resolution_witness :
    (sendToSlack apiStub "U1" (ParsePortalID "T1-C1").2
        (ConvertedSlackMessage.mk none (some ⟨"f"⟩) none) true).2.2 =
      .ok (resolveShareInfo { id := "F1", sharesPriv := [], sharesPub := [] }
        (ParsePortalID "T1-C1").2).ts ∧
    (∀ info rest, lookupAssoc ({ id := "F1", sharesPriv := [], sharesPub := [] } : SlackFile).sharesPriv
        (ParsePortalID "T1-C1").2 = some (info :: rest) →
      resolveShareInfo { id := "F1", sharesPriv := [], sharesPub := [] }
        (ParsePortalID "T1-C1").2 = info) ∧
    ((lookupAssoc ({ id := "F1", sharesPriv := [], sharesPub := [] } : SlackFile).sharesPriv
        (ParsePortalID "T1-C1").2 = none ∨
      lookupAssoc ({ id := "F1", sharesPriv := [], sharesPub := [] } : SlackFile).sharesPriv
        (ParsePortalID "T1-C1").2 = some []) →
      ∀ info rest, lookupAssoc ({ id := "F1", sharesPriv := [], sharesPub := [] } : SlackFile).sharesPub
          (ParsePortalID "T1-C1").2 = some (info :: rest) →
        resolveShareInfo { id := "F1", sharesPriv := [], sharesPub := [] }
          (ParsePortalID "T1-C1").2 = info) ∧
    ((resolveShareInfo { id := "F1", sharesPriv := [], sharesPub := [] }
        (ParsePortalID "T1-C1").2).ts = "" →
      (sendToSlack apiStub "U1" (ParsePortalID "T1-C1").2
          (ConvertedSlackMessage.mk none (some ⟨"f"⟩) none) true).2.1 =
        ["U1" ++ ":" ++ "F1"] ∧
      (HandleMatrixMessage apiStub (.ok (ConvertedSlackMessage.mk none (some ⟨"f"⟩) none))
          { userID := "U1", teamID := "T1", loginID := "T1-U1", clientConnected := true,
            rtmConnected := true, token := "xoxc-1", cookieToken := "d-1", isRealUser := true }
          "T1-C1").2.2 =
        .ok { pending := true, dbMessageID := none, dbSenderID := none }) :=
  fileUpload_timestamp_resolution apiStub
    { userID := "U1", teamID := "T1", loginID := "T1-U1", clientConnected := true,
      rtmConnected := true, token := "xoxc-1", cookieToken := "d-1", isRealUser := true }
    "T1-C1" (ConvertedSlackMessage.mk none (some ⟨"f"⟩) none) ⟨"f"⟩
    { id := "F1", sharesPriv := [], sharesPub := [] }
    rfl (by decide) rfl rfl rfl

/-- The remote API calls issued by the non-message Matrix handlers. -/
inductive MatrixCall
  | deleteMessage (channelID ts : String)
  | addReaction (emojiID channelID ts : String)
  | removeReaction (emojiID channelID ts : String)
  | markConversation (channelID ts : String)
  | sendTyping (channelID : String)
  | renameConversation (channelID name : String)
  | setTopic (channelID topic : String)
deriving DecidableEq, Repr

/-- Responses of the remote API and the message database consumed by the
non-message Matrix handlers, supplied by the environment. `getLastMessage`
models `DB.Message.GetLastPartAtOrBeforeTime` returning the identifier of the
last message at or before the read-up-to time, if any. -/
structure MatrixHandlerEnv where
  deleteMessageResult : Except String Unit
  addReactionResult : Except String Unit
  removeReactionResult : Except String Unit
  markConversationResult : Except String Unit
  renameResult : Except String Unit
  setTopicResult : Except String Unit
  getLastMessage : Except String (Option String)

/-- Maps a remote call result onto the handler's Go error return. -/
def liftRemote (r : Except String Unit) : Except OutboundError Unit :=
  match r with
  | .ok _ => .ok ()
  | .error e => .error (.goError e)

/-- `SlackClient.HandleMatrixEdit`: client guard, channel resolution,
conversion, and dispatch through `sendToSlack` with no message context (the
returned timestamp is discarded, only the error propagates). -/
def HandleMatrixEdit (api : SlackAPI) (toSlack : Except String ConvertedSlackMessage)
    (s : SlackClientState) (portalID : String) :
    List RemoteCall × Except OutboundError Unit :=
  if s.clientConnected = false then
    ([], .error .notLoggedIn)
  else
    let channelID := (ParsePortalID portalID).2
    if channelID = "" then
      ([], .error (.goError "invalid channel ID"))
    else
      match toSlack with
      | .error e => ([], .error (.goError e))
      | .ok conv =>
        let r := sendToSlack api s.userID channelID conv false
        match r.2.2 with
        | .error e => (r.1, .error (.goError e))
        | .ok _ => (r.1, .ok ())

/-- `SlackClient.HandleMatrixMessageRemove`: client guard, message-id parse,
then a single delete call by channel and timestamp. -/
def HandleMatrixMessageRemove (env : MatrixHandlerEnv) (s : SlackClientState)
    (targetMessageID : String) : List MatrixCall × Except OutboundError Unit :=
  if s.clientConnected = false then
    ([], .error .notLoggedIn)
  else
    match ParseMessageID targetMessageID with
    | none => ([], .error (.goError "invalid message ID"))
    | some (_, channelID, messageTS) =>
      ([.deleteMessage channelID messageTS], liftRemote env.deleteMessageResult)

/-- `SlackClient.HandleMatrixReaction`: client guard, message-id parse, then a
single add-reaction call. -/
def HandleMatrixReaction (env : MatrixHandlerEnv) (s : SlackClientState)
    (targetMessageID emojiID : String) : List MatrixCall × Except OutboundError Unit :=
  if s.clientConnected = false then
    ([], .error .notLoggedIn)
  else
    match ParseMessageID targetMessageID with
    | none => ([], .error (.goError "invalid message ID"))
    | some (_, channelID, messageTS) =>
      ([.addReaction emojiID channelID messageTS], liftRemote env.addReactionResult)

/-- `SlackClient.HandleMatrixReactionRemove`: client guard, message-id parse,
then a single remove-reaction call; the remote error string `reaction` is
swallowed. -/
def HandleMatrixReactionRemove (env : MatrixHandlerEnv) (s : SlackClientState)
    (targetMessageID emojiID : String) : List MatrixCall × Except OutboundError Unit :=
  if s.clientConnected = false then
    ([], .error .notLoggedIn)
  else
    match ParseMessageID targetMessageID with
    | none => ([], .error (.goError "invalid message ID"))
    | some (_, channelID, messageTS) =>
      ([.removeReaction emojiID channelID messageTS],
        match env.removeReactionResult with
        | .error e => if e = "reaction" then .ok () else .error (.goError e)
        | .ok _ => .ok ())

/-- `SlackClient.HandleMatrixReadReceipt`: client guard, then the real-user
gate (puppeted sessions silently succeed with no remote call); with an exact
target message the conversation is marked at its timestamp, otherwise at the
last database message before the read-up-to time, if one exists. -/
def HandleMatrixReadReceipt (env : MatrixHandlerEnv) (s : SlackClientState)
    (exactMessageID : Option String) : List MatrixCall × Except OutboundError Unit :=
  if s.clientConnected = false then
    ([], .error .notLoggedIn)
  else if s.isRealUser = false then
    ([], .ok ())
  else
    match exactMessageID with
    | some mid =>
      match ParseMessageID mid with
      | none => ([], .error (.goError "invalid message ID"))
      | some (_, channelID, messageTS) =>
        ([.markConversation channelID messageTS], liftRemote env.markConversationResult)
    | none =>
      match env.getLastMessage with
      | .error e => ([], .error (.goError e))
      | .ok none => ([], .ok ())
      | .ok (some lastID) =>
        match ParseMessageID lastID with
        | none => ([], .error (.goError "invalid message ID"))
        | some (_, channelID, messageTS) =>
          ([.markConversation channelID messageTS], liftRemote env.markConversationResult)

/-- `SlackClient.HandleMatrixTyping`: client guard, then the real-user gate;
an unparseable portal id silently succeeds; otherwise a single typing message
is sent over the RTM connection (no error return). -/
def HandleMatrixTyping (env : MatrixHandlerEnv) (s : SlackClientState)
    (portalID : String) : List MatrixCall × Except OutboundError Unit :=
  if s.clientConnected = false then
    ([], .error .notLoggedIn)
  else if s.isRealUser = false then
    ([], .ok ())
  else
    let channelID := (ParsePortalID portalID).2
    if channelID = "" then
      ([], .ok ())
    else
      ([.sendTyping channelID], .ok ())

/-- `SlackClient.HandleMatrixRoomName`: resolves the channel id, then renames
the conversation through the client. The source performs no client guard and
no real-user gate here; on a logged-out session the client dereference is the
nil-client panic. Returns the Go pair `(err == nil, err)` as an `Except`. -/
def HandleMatrixRoomName (env : MatrixHandlerEnv) (s : SlackClientState)
    (portalID name : String) : List MatrixCall × Except OutboundError Bool :=
  let channelID := (ParsePortalID portalID).2
  if channelID = "" then
    ([], .error (.goError "invalid channel ID"))
  else if s.clientConnected = false then
    ([], .error .nilClientPanic)
  else
    ([.renameConversation channelID name],
      match env.renameResult with
      | .ok _ => .ok true
      | .error e => .error (.goError e))

/-- `SlackClient.HandleMatrixRoomTopic`: resolves the channel id, then sets
the conversation topic through the client. As with the room-name handler, the
source has no client guard and no real-user gate. -/
def HandleMatrixRoomTopic (env : MatrixHandlerEnv) (s : SlackClientState)
    (portalID topic : String) : List MatrixCall × Except OutboundError Bool :=
  let channelID := (ParsePortalID portalID).2
  if channelID = "" then
    ([], .error (.goError "invalid channel ID"))
  else if s.clientConnected = false then
    ([], .error .nilClientPanic)
  else
    ([.setTopic channelID topic],
      match env.setTopicResult with
      | .ok _ => .ok true
      | .error e => .error (.goError e))

/-- A fixed handler environment with all remote calls succeeding, used by
concrete instantiations. -/
def mhEnvStub : MatrixHandlerEnv where
  deleteMessageResult := .ok ()
  addReactionResult := .ok ()
  removeReactionResult := .ok ()
  markConversationResult := .ok ()
  renameResult := .ok ()
  setTopicResult := .ok ()
  getLastMessage := .ok none

/-- A logged-out session state used by concrete instantiations. -/
def loggedOutState : SlackClientState :=
  { userID := "U1", teamID := "T1", loginID := "T1-U1", clientConnected := false,
    rtmConnected := false, token := "", cookieToken := "", isRealUser := true }

/-- A live puppeted (non-real-user) session state used by concrete
instantiations. -/
def puppetState : SlackClientState :=
  { userID := "U1", teamID := "T1", loginID := "T1-U1", clientConnected := true,
    rtmConnected := true, token := "xoxb-1", cookieToken := "", isRealUser := false }

/-- C7 counterexample: on a live puppeted session (non-real identity), the
room-name handler does issue a remote call, so the claim that name/topic
changes silently no-op for non-real sessions is false at this input. -/
theorem roomName_not_gated_counterexample :
    (HandleMatrixRoomName mhEnvStub puppetState "T1-C1" "general").1 ≠ [] := by
  decide

/-- C7 as amended: read receipts and typing indicators are gated by the
real-user flag — on a non-real session they silently succeed with no remote
call, and on a real session they issue a single remote call — while room name
and topic changes are not gated and issue their single remote call regardless
of the real-user flag. -/
theorem realUser_gating_amended (env : MatrixHandlerEnv) (s : SlackClientState)
    (portalID name topic mid : String) (ex : Option String)
    (hclient : s.clientConnected = true) :
    (s.isRealUser = false →
      HandleMatrixReadReceipt env s ex = ([], .ok ()) ∧
      HandleMatrixTyping env s portalID = ([], .ok ())) ∧
    (s.isRealUser = true → ∀ t ch ts, ParseMessageID mid = some (t, ch, ts) →
      (HandleMatrixReadReceipt env s (some mid)).1 = [.markConversation ch ts]) ∧
    (s.isRealUser = true → (ParsePortalID portalID).2 ≠ "" →
      (HandleMatrixTyping env s portalID).1 = [.sendTyping (ParsePortalID portalID).2]) ∧
    ((ParsePortalID portalID).2 ≠ "" →
      (HandleMatrixRoomName env s portalID name).1 =
        [.renameConversation (ParsePortalID portalID).2 name] ∧
      (HandleMatrixRoomTopic env s portalID topic).1 =
        [.setTopic (ParsePortalID portalID).2 topic]) := by
  refine ⟨?_, ?_, ?_, ?_⟩
  · intro hreal
    constructor <;> simp [HandleMatrixReadReceipt, HandleMatrixTyping, hclient, hreal]
  · intro hreal t ch ts hparse
    simp [HandleMatrixReadReceipt, hclient, hreal, hparse]
  · intro hreal hch
    simp [HandleMatrixTyping, hclient, hreal, if_neg hch]
  · intro hch
    constructor <;>
      simp [HandleMatrixRoomName, HandleMatrixRoomTopic, hclient, if_neg hch]

/-- Concrete instantiation of the amended real-user gating theorem on a live
puppeted session. -/
theorem realUser_gating_amended_witness :
    (puppetState.isRealUser = false →
      HandleMatrixReadReceipt mhEnvStub puppetState none = ([], .ok ()) ∧
      HandleMatrixTyping mhEnvStub puppetState "T1-C1" = ([], .ok ())) ∧
    (puppetState.isRealUser = true → ∀ t ch ts,
      ParseMessageID "T1-C1-1700000000.000100" = some (t, ch, ts) →
      (HandleMatrixReadReceipt mhEnvStub puppetState (some "T1-C1-1700000000.000100")).1 =
        [.markConversation ch ts]) ∧
    (puppetState.isRealUser = true → (ParsePortalID "T1-C1").2 ≠ "" →
      (HandleMatrixTyping mhEnvStub puppetState "T1-C1").1 =
        [.sendTyping (ParsePortalID "T1-C1").2]) ∧
    ((ParsePortalID "T1-C1").2 ≠ "" →
      (HandleMatrixRoomName mhEnvStub puppetState "T1-C1" "general").1 =
        [.renameConversation (ParsePortalID "T1-C1").2 "general"] ∧
      (HandleMatrixRoomTopic mhEnvStub puppetState "T1-C1" "welcome").1 =
        [.setTopic (ParsePortalID "T1-C1").2 "welcome"]) :=
  realUser_gating_amended mhEnvStub puppetState "T1-C1" "general" "welcome"
    "T1-C1-1700000000.000100" none rfl

/-- C8 counterexample: on a logged-out session (no client), the room-name
handler does not fail with the not-logged-in error (it reaches the nil client
dereference instead), so the claim that every outbound operation checks the
client first is false at this input. -/
theorem roomName_no_login_check_counterexample :
    (HandleMatrixRoomName mhEnvStub loggedOutState "T1-C1" "general").2 ≠
      Except.error OutboundError.notLoggedIn := by
  intro h
  have hv : (HandleMatrixRoomName mhEnvStub loggedOutState "T1-C1" "general").2 =
      Except.error OutboundError.nilClientPanic := rfl
  rw [hv] at h
  simp at h

/-- C8 as amended: every outbound operation except the room-name and
room-topic handlers checks for an active client first and fails fast with the
not-logged-in error without issuing any remote call; the room-name and
room-topic handlers perform no such check and, after resolving the channel,
dereference the absent client. -/
theorem notLoggedIn_guard_amended (api : SlackAPI)
    (toSlack : Except String ConvertedSlackMessage) (env : MatrixHandlerEnv)
    (s : SlackClientState) (portalID name topic targetMessageID emojiID : String)
    (ex : Option String) (h : s.clientConnected = false) :
    HandleMatrixMessage api toSlack s portalID = ([], [], .error .notLoggedIn) ∧
    HandleMatrixEdit api toSlack s portalID = ([], .error .notLoggedIn) ∧
    HandleMatrixMessageRemove env s targetMessageID = ([], .error .notLoggedIn) ∧
    HandleMatrixReaction env s targetMessageID emojiID = ([], .error .notLoggedIn) ∧
    HandleMatrixReactionRemove env s targetMessageID emojiID = ([], .error .notLoggedIn) ∧
    HandleMatrixReadReceipt env s ex = ([], .error .notLoggedIn) ∧
    HandleMatrixTyping env s portalID = ([], .error .notLoggedIn) ∧
    ((ParsePortalID portalID).2 ≠ "" →
      HandleMatrixRoomName env s portalID name = ([], .error .nilClientPanic) ∧
      HandleMatrixRoomTopic env s portalID topic = ([], .error .nilClientPanic)) := by
  refine ⟨?_, ?_, ?_, ?_, ?_, ?_, ?_, ?_⟩
  · simp [HandleMatrixMessage, h]
  · simp [HandleMatrixEdit, h]
  · simp [HandleMatrixMessageRemove, h]
  · simp [HandleMatrixReaction, h]
  · simp [HandleMatrixReactionRemove, h]
  · simp [HandleMatrixReadReceipt, h]
  · simp [HandleMatrixTyping, h]
  · intro hch
    constructor <;>
      simp [HandleMatrixRoomName, HandleMatrixRoomTopic, h, if_neg hch]

/-- Concrete instantiation of the amended not-logged-in guard theorem on a
logged-out session. -/
theorem notLoggedIn_guard_amended_witness :
    HandleMatrixMessage apiStub (.ok (ConvertedSlackMessage.mk (some ⟨"hi"⟩) none none))
      loggedOutState "T1-C1" = ([], [], .error .notLoggedIn) ∧
    HandleMatrixEdit apiStub (.ok (ConvertedSlackMessage.mk (some ⟨"hi"⟩) none none))
      loggedOutState "T1-C1" = ([], .error .notLoggedIn) ∧
    HandleMatrixMessageRemove mhEnvStub loggedOutState "T1-C1-1700000000.000100" =
      ([], .error .notLoggedIn) ∧
    HandleMatrixReaction mhEnvStub loggedOutState "T1-C1-1700000000.000100" "wave" =
      ([], .error .notLoggedIn) ∧
    HandleMatrixReactionRemove mhEnvStub loggedOutState "T1-C1-1700000000.000100" "wave" =
      ([], .error .notLoggedIn) ∧
    HandleMatrixReadReceipt mhEnvStub loggedOutState none = ([], .error .notLoggedIn) ∧
    HandleMatrixTyping mhEnvStub loggedOutState "T1-C1" = ([], .error .notLoggedIn) ∧
    ((ParsePortalID "T1-C1").2 ≠ "" →
      HandleMatrixRoomName mhEnvStub loggedOutState "T1-C1" "general" =
        ([], .error .nilClientPanic) ∧
      HandleMatrixRoomTopic mhEnvStub loggedOutState "T1-C1" "welcome" =
        ([], .error .nilClientPanic)) :=
  notLoggedIn_guard_amended apiStub (.ok (ConvertedSlackMessage.mk (some ⟨"hi"⟩) none none))
    mhEnvStub loggedOutState "T1-C1" "general" "welcome" "T1-C1-1700000000.000100" "wave"
    none rfl

/-! ### Event-meta construction (`makeEventMeta`) and message classification -/

/-- The latest visible message of a conversation (`slack.Channel.Latest`);
only its subtype is consumed by the sync filter. -/
structure SlackLatestMsg where
  subType : String
deriving DecidableEq, Repr

/-- A remote conversation descriptor (`slack.Channel`), restricted to the
fields the analyzed code consumes: id, the direct-message flag, the latest
message, and the last-read timestamp string. -/
structure SlackChannel where
  id : String
  isIM : Bool
  latest : Option SlackLatestMsg
  lastRead : String
deriving DecidableEq, Repr

/-- A bridge room key (`networkid.PortalKey`). -/
structure PortalKey where
  id : String
  receiver : String
deriving DecidableEq, Repr

/-- `PortalKey.IsEmpty`: a key with an empty identifier. -/
def PortalKey.isEmpty (k : PortalKey) : Bool :=
  k.id == ""

/-- A resolved event sender (`bridgev2.EventSender`). -/
structure EventSender where
  isFromMe : Bool
  sender : String
deriving DecidableEq, Repr

/-- Modelled from the spec: `s.makePortalKey(channel)` (defined outside the
analyzed files) derives the room key directly from the inline channel
descriptor, scoped to the session's team and receiver. -/
def makePortalKey (s : SlackClientState) (ch : SlackChannel) : PortalKey :=
  { id := MakePortalID s.teamID ch.id, receiver := s.loginID }

/-- Modelled from the spec: `s.makeEventSender(senderID)` (defined outside the
analyzed files) resolves a remote sender id into the bridge addressing type. -/
def makeEventSender (s : SlackClientState) (senderID : String) : EventSender :=
  { isFromMe := senderID == s.userID, sender := MakeUserID s.teamID senderID }

/-- The normalized event kinds (`bridgev2.RemoteEventType` values used by the
connector). -/
inductive RemoteEventType
  | unknown
  | message
  | edit
  | messageRemove
  | chatInfoChange
  | reaction
  | reactionRemove
  | typing
  | readReceipt
deriving DecidableEq, Repr

/-- The normalized event envelope (`SlackEventMeta`): room key, optional
sender, optional message id, the raw remote timestamp when one was supplied
(absence means the receive time is used), and the create-portal flag. -/
structure SlackEventMeta where
  type : RemoteEventType := .unknown
  portalKey : PortalKey
  sender : Option EventSender := none
  id : Option String := none
  timestampRaw : Option String := none
  createPortal : Bool := false
deriving DecidableEq, Repr

/-- Failures of event-meta construction: a portal-lookup database error, or an
unknown channel (no mapping and no inline descriptor). -/
inductive MetaError
  | lookupFailed (e : String)
  | unknownChannel (channelID : String)
deriving DecidableEq, Repr

/-- `SlackClient.makeEventMeta`: with an inline channel descriptor the room
key is derived directly; otherwise the portal directory is consulted for
(this account, channel id) via `findPortalReceiver`, failing on a lookup error
or, when the lookup comes back empty, with the unknown-channel error. Sender
and timestamp fields are filled only when provided. -/
def makeEventMeta (s : SlackClientState)
    (findPortalReceiver : String → String → Except String PortalKey)
    (channelID : String) (channel : Option SlackChannel)
    (senderID timestamp : String) : Except MetaError SlackEventMeta :=
  let keyE : Except MetaError PortalKey :=
    match channel with
    | some ch => .ok (makePortalKey s ch)
    | none =>
      match findPortalReceiver (MakePortalID s.teamID channelID) s.loginID with
      | .error e => .error (.lookupFailed e)
      | .ok key => if key.isEmpty then .error (.unknownChannel channelID) else .ok key
  match keyE with
  | .error e => .error e
  | .ok key =>
    .ok { portalKey := key,
          sender := if senderID = "" then none else some (makeEventSender s senderID),
          id := if timestamp = "" then none
                else some (MakeMessageID s.teamID channelID timestamp),
          timestampRaw := if timestamp = "" then none else some timestamp }

/-- C5: with no inline descriptor, event-meta construction fails with the
unknown-channel error exactly when the portal lookup returns an empty mapping
for (this account, channel id); it yields no envelope at all in that case, and
with a descriptor supplied the room key is derived directly, independently of
the lookup collaborator. -/
theorem makeEventMeta_unknown_channel (s : SlackClientState)
    (findPortalReceiver : String → String → Except String PortalKey)
    (channelID senderID timestamp : String) :
    (makeEventMeta s findPortalReceiver channelID none senderID timestamp =
        .error (.unknownChannel channelID) ↔
      ∃ k, findPortalReceiver (MakePortalID s.teamID channelID) s.loginID = .ok k ∧
        k.isEmpty = true) ∧
    (∀ e, findPortalReceiver (MakePortalID s.teamID channelID) s.loginID = .error e →
      makeEventMeta s findPortalReceiver channelID none senderID timestamp =
        .error (.lookupFailed e)) ∧
    (∀ ch find2, makeEventMeta s findPortalReceiver channelID (some ch) senderID timestamp =
      makeEventMeta s find2 channelID (some ch) senderID timestamp) ∧
    (∀ ch, ∃ meta, makeEventMeta s findPortalReceiver channelID (some ch) senderID timestamp =
      .ok meta ∧ meta.portalKey = makePortalKey s ch) := by
  refine ⟨⟨?_, ?_⟩, ?_, ?_, ?_⟩
  · intro h
    rcases hfind : findPortalReceiver (MakePortalID s.teamID channelID) s.loginID with e | k
    · simp [makeEventMeta, hfind] at h
    · refine ⟨k, rfl, ?_⟩
      by_cases hk : k.isEmpty = true
      · exact hk
      · simp [makeEventMeta, hfind, hk] at h
  · rintro ⟨k, hfind, hk⟩
    simp [makeEventMeta, hfind, hk]
  · intro e hfind
    simp [makeEventMeta, hfind]
  · intro ch find2
    simp [makeEventMeta]
  · intro ch
    exact ⟨_, rfl, rfl⟩

/-- Concrete instantiation of the unknown-channel theorem with a lookup that
finds no mapping. -/
theorem makeEventMeta_unknown_channel_witness :
    (makeEventMeta loggedOutState (fun _ _ => .ok ⟨"", ""⟩) "C9" none "U1" "1.2" =
        .error (.unknownChannel "C9") ↔
      ∃ k, (fun (_ _ : String) => (.ok ⟨"", ""⟩ : Except String PortalKey))
          (MakePortalID loggedOutState.teamID "C9") loggedOutState.loginID = .ok k ∧
        k.isEmpty = true) ∧
    (∀ e, (fun (_ _ : String) => (.ok ⟨"", ""⟩ : Except String PortalKey))
        (MakePortalID loggedOutState.teamID "C9") loggedOutState.loginID = .error e →
      makeEventMeta loggedOutState (fun _ _ => .ok ⟨"", ""⟩) "C9" none "U1" "1.2" =
        .error (.lookupFailed e)) ∧
    (∀ ch find2, makeEventMeta loggedOutState (fun _ _ => .ok ⟨"", ""⟩) "C9" (some ch) "U1" "1.2" =
      makeEventMeta loggedOutState find2 "C9" (some ch) "U1" "1.2") ∧
    (∀ ch, ∃ meta, makeEventMeta loggedOutState (fun _ _ => .ok ⟨"", ""⟩) "C9" (some ch) "U1" "1.2" =
      .ok meta ∧ meta.portalKey = makePortalKey loggedOutState ch) :=
  makeEventMeta_unknown_channel loggedOutState (fun _ _ => .ok ⟨"", ""⟩) "C9" "U1" "1.2"

/-! ### Message subtype classification and the stubbed edit conversion -/

/-- A raw message event (`slack.MessageEvent`), restricted to the fields the
classification and timestamp logic consume. -/
structure SlackMessageEvent where
  subType : String
  timestamp : String
  subMessageTimestamp : String
  deletedTimestamp : String
deriving DecidableEq, Repr

/-- `SlackMessage.GetType`: sub-dispatch on the remote message subtype —
changed becomes an edit, deleted a removal, topic/purpose/name changes a
chat-info change, structural subtypes are dropped as unknown, and everything
else is an ordinary message. -/
def SlackMessage.GetType (d : SlackMessageEvent) : RemoteEventType :=
  match d.subType with
  | "message_changed" => .edit
  | "message_deleted" => .messageRemove
  | "channel_topic" | "channel_purpose" | "channel_name"
  | "group_topic" | "group_purpose" | "group_name" => .chatInfoChange
  | "message_replied" | "group_join" | "group_leave"
  | "channel_join" | "channel_leave" => .unknown
  | _ => .message

/-- A converted edit payload (`bridgev2.ConvertedEdit`), opaque. -/
structure ConvertedEdit where
  payload : String
deriving DecidableEq, Repr

/-- `SlackMessage.ConvertEdit`: the source body is a bare unimplemented stub
(`panic("implement me")` behind the commented-out previous/new message pair),
so no edit payload is ever constructed; modelled as producing nothing. -/
def SlackMessage.ConvertEdit (d : SlackMessageEvent) : Option ConvertedEdit :=
  none

/-- C9: a message-changed remote event is classified as the edit variant, but
its payload construction is the unimplemented stub and yields no converted
edit payload. -/
theorem messageChanged_stubbed_edit (d : SlackMessageEvent)
    (h : d.subType = "message_changed") :
    SlackMessage.GetType d = .edit ∧ SlackMessage.ConvertEdit d = none := by
  constructor
  · unfold SlackMessage.GetType
    rw [h]
    decide
  · rfl

/-- Concrete instantiation of the stubbed-edit theorem. -/
theorem messageChanged_stubbed_edit_witness :
    SlackMessage.GetType ⟨"message_changed", "1.2", "1.3", ""⟩ = .edit ∧
    SlackMessage.ConvertEdit ⟨"message_changed", "1.2", "1.3", ""⟩ = none :=
  messageChanged_stubbed_edit ⟨"message_changed", "1.2", "1.3", ""⟩ rfl

/-! ### Channel reconciliation (`SyncChannels`) -/

/-- A local room record (`bridgev2.Portal`): key plus the Matrix room id,
empty when no local room has been materialized yet. -/
structure Portal where
  key : PortalKey
  mxid : String
deriving DecidableEq, Repr

/-- One action of the channel-reconciliation sync, in execution order:
a conversation-list fetch, a metadata refresh of an existing room, or a
local-room creation attempt for a channel. -/
inductive SyncAction
  | fetchConversations (cursor : String) (limit : Nat)
  | refreshPortal (channelID : String)
  | createRoom (channel : SlackChannel)
deriving DecidableEq, Repr

/-- The skip condition of the conversation-list loop: direct-message
conversations whose latest message is absent or has an empty subtype are
never entered into the candidate set (non-open DMs). -/
def skipChannel (ch : SlackChannel) : Bool :=
  ch.isIM &&
    (match ch.latest with
     | none => true
     | some m => m.subType == "")

/-- Go map write `serverInfo[channel.ID] = &channel`, as an association-list
update keyed by the channel id. -/
def insertChannel (m : List (String × SlackChannel)) (ch : SlackChannel) :
    List (String × SlackChannel) :=
  m.filter (fun p => p.1 != ch.id) ++ [(ch.id, ch)]

/-- Go map delete `delete(serverInfo, channelID)`. -/
def removeChannel (m : List (String × SlackChannel)) (channelID : String) :
    List (String × SlackChannel) :=
  m.filter (fun p => p.1 != channelID)

/-- `strings.HasPrefix`. -/
def strStartsWith (s p : String) : Bool :=
  p.toList.isPrefixOf s.toList

/-- The collaborators of `SyncChannels`, supplied by the environment: the
paged conversation-list API, the user-portal rows of this login, the portal
directory, and the per-portal chat-info fetch (info contents opaque). Room
creation (`CreateMatrixRoom`) is always attempted for each remaining channel
whose portal lookup succeeded, and its errors are only logged, so the attempt
itself is the recorded action. -/
structure SyncEnv where
  getConversations : String → Nat → Except String (List SlackChannel × String)
  userPortals : Except String (List PortalKey)
  getExistingPortal : PortalKey → Except String Portal
  getChatInfo : Portal → Except String Unit
  getPortal : PortalKey → Except String Portal

/-- The per-request limit of the paging loop (`reqLimit`): 100 when more than
200 conversations remain to fetch, otherwise the remainder. -/
def reqLimitOf (totalLimit : Nat) : Nat :=
  if totalLimit > 200 then 100 else totalLimit

/-- The inner chunk loop of the fetch phase: insert every channel of the
chunk into the candidate map, skipping non-open direct messages. -/
def insertChunk (acc : List (String × SlackChannel)) (chunk : List SlackChannel) :
    List (String × SlackChannel) :=
  chunk.foldl (fun m ch => if skipChannel ch then m else insertChannel m ch) acc

/-- The conversation-list paging loop of `SyncChannels`: while the remaining
total limit is positive, fetch a chunk of at most `reqLimitOf`, insert the
non-skipped channels into the candidate map, and stop on an empty next-cursor
or empty chunk; a fetch error aborts the whole sync (`none`). -/
def fetchConversationLoop (get : String → Nat → Except String (List SlackChannel × String))
    (totalLimit : Nat) (cursor : String) (acc : List (String × SlackChannel))
    (trace : List SyncAction) :
    List SyncAction × Option (List (String × SlackChannel)) :=
  if h0 : totalLimit = 0 then (trace, some acc)
  else
    match get cursor (reqLimitOf totalLimit) with
    | .error _ =>
      (trace ++ [.fetchConversations cursor (reqLimitOf totalLimit)], none)
    | .ok (chunk, nextCursor) =>
      if hbreak : nextCursor = "" ∨ chunk = [] then
        (trace ++ [.fetchConversations cursor (reqLimitOf totalLimit)],
          some (insertChunk acc chunk))
      else
        fetchConversationLoop get (totalLimit - chunk.length) nextCursor
          (insertChunk acc chunk)
          (trace ++ [.fetchConversations cursor (reqLimitOf totalLimit)])
termination_by totalLimit
decreasing_by
  have hne : chunk ≠ [] := fun hc => hbreak (Or.inr hc)
  have hpos : 0 < chunk.length := List.length_pos.mpr hne
  omega

/-- One step of the existing-portal pass: skip rows whose portal id carries no
channel component and rows whose portal fetch fails; for a materialized room
(non-empty Matrix id) refresh its metadata (recorded only when the chat-info
fetch succeeds, as in the source the update is skipped on error) and remove
the channel from the candidate map. -/
def refreshStep (env : SyncEnv)
    (acc : List (String × SlackChannel) × List SyncAction) (up : PortalKey) :
    List (String × SlackChannel) × List SyncAction :=
  let channelID := (ParsePortalID up.id).2
  if channelID = "" then acc
  else
    match env.getExistingPortal up with
    | .error _ => acc
    | .ok portal =>
      if portal.mxid ≠ "" then
        (removeChannel acc.1 channelID,
          match env.getChatInfo portal with
          | .error _ => acc.2
          | .ok _ => acc.2 ++ [.refreshPortal channelID])
      else acc

/-- The existing-portal pass of `SyncChannels` over all user-portal rows. -/
def refreshPass (env : SyncEnv) (serverInfo : List (String × SlackChannel))
    (ups : List PortalKey) : List (String × SlackChannel) × List SyncAction :=
  ups.foldl (refreshStep env) (serverInfo, [])

/-- One step of the creation pass: fetch the portal for the channel's key and
attempt to create its Matrix room (lookup errors skip the channel; creation
errors are only logged). -/
def createStep (env : SyncEnv) (s : SlackClientState)
    (trace : List SyncAction) (ch : SlackChannel) : List SyncAction :=
  match env.getPortal (makePortalKey s ch) with
  | .error _ => trace
  | .ok _ => trace ++ [.createRoom ch]

/-- The creation pass of `SyncChannels` over the remaining channels. -/
def createPass (env : SyncEnv) (s : SlackClientState)
    (remaining : List SlackChannel) : List SyncAction :=
  remaining.foldl (createStep env s) []

/-- The conversation-fetch phase of `SyncChannels`: skipped entirely (empty
candidate map) when the stored token is a legacy `xoxs` token. -/
def fetchOutcome (env : SyncEnv) (s : SlackClientState) (conversationCount : Nat) :
    List SyncAction × Option (List (String × SlackChannel)) :=
  if strStartsWith s.token "xoxs" then ([], some [])
  else fetchConversationLoop env.getConversations conversationCount "" [] []

/-- `SlackClient.SyncChannels`: fetch the conversation list unless the stored
token is a legacy `xoxs` token, refresh and prune already-materialized rooms,
then create local rooms for the remaining channels in ascending last-read
order (`slices.SortFunc` by `cmp.Compare` on `LastRead`, modelled by insertion
sort: any sorted permutation). -/
def SyncChannels (env : SyncEnv) (s : SlackClientState) (conversationCount : Nat) :
    List SyncAction :=
  match fetchOutcome env s conversationCount with
  | (trace, none) => trace
  | (trace, some serverInfo) =>
    match env.userPortals with
    | .error _ => trace
    | .ok ups =>
      let rp := refreshPass env serverInfo ups
      let remaining :=
        List.insertionSort (fun a b => a.lastRead ≤ b.lastRead) (rp.1.map Prod.snd)
      trace ++ rp.2 ++ createPass env s remaining

/-- The channels for which the sync attempted a local-room creation, in
order. -/
def createdChannels (trace : List SyncAction) : List SlackChannel :=
  trace.filterMap (fun a =>
    match a with
    | .createRoom ch => some ch
    | _ => none)

/-- Whether a user-portal row denotes an already-materialized local room:
its portal id parses to a channel and the portal exists with a non-empty
Matrix room id. -/
def isMaterialized (env : SyncEnv) (up : PortalKey) : Bool :=
  (ParsePortalID up.id).2 != "" &&
    (match env.getExistingPortal up with
     | .ok portal => portal.mxid != ""
     | .error _ => false)

/-- Whether the portal lookup for a channel's key succeeds during the
creation pass. -/
def portalFetchOk (env : SyncEnv) (s : SlackClientState) (ch : SlackChannel) : Bool :=
  match env.getPortal (makePortalKey s ch) with
  | .ok _ => true
  | .error _ => false

theorem mem_insertChannel {m : List (String × SlackChannel)} {ch : SlackChannel}
    {p : String × SlackChannel} (h : p ∈ insertChannel m ch) :
    p ∈ m ∨ p = (ch.id, ch) := by
  rcases List.mem_append.mp h with h1 | h1
  · exact Or.inl (List.mem_of_mem_filter h1)
  · exact Or.inr (List.mem_singleton.mp h1)

theorem mem_insertChunk {chunk : List SlackChannel} :
    ∀ {acc : List (String × SlackChannel)} {p : String × SlackChannel},
    p ∈ insertChunk acc chunk →
    p ∈ acc ∨ ∃ ch ∈ chunk, skipChannel ch = false ∧ p = (ch.id, ch) := by
  induction chunk with
  | nil => intro acc p h; exact Or.inl h
  | cons ch chunk ih =>
    intro acc p h
    simp only [insertChunk, List.foldl_cons] at h
    rcases ih h with h1 | ⟨ch2, hch2, hskip, hp⟩
    · by_cases hs : skipChannel ch = true
      · rw [if_pos hs] at h1
        exact Or.inl h1
      · rw [if_neg hs] at h1
        rcases mem_insertChannel h1 with h2 | h2
        · exact Or.inl h2
        · exact Or.inr ⟨ch, List.mem_cons_self _ _, Bool.not_eq_true _ ▸ hs, h2⟩
    · exact Or.inr ⟨ch2, List.mem_cons_of_mem _ hch2, hskip, hp⟩

/-- Entries of the candidate map built by the fetch loop: assuming the
invariant on the accumulator, every entry is a non-skipped channel keyed by
its own id. -/
theorem fetchConversationLoop_entries
    (get : String → Nat → Except String (List SlackChannel × String)) :
    ∀ (n : Nat) (cursor : String) (acc : List (String × SlackChannel))
      (trace : List SyncAction),
    (∀ p ∈ acc, skipChannel p.2 = false ∧ p.1 = p.2.id) →
    ∀ {tr : List SyncAction} {m : List (String × SlackChannel)},
    fetchConversationLoop get n cursor acc trace = (tr, some m) →
    ∀ p ∈ m, skipChannel p.2 = false ∧ p.1 = p.2.id := by
  intro n cursor acc trace
  induction n, cursor, acc, trace using fetchConversationLoop.induct get with
  | case1 cursor acc trace =>
    intro hacc tr m heq p hp
    rw [fetchConversationLoop, dif_pos rfl] at heq
    rw [Prod.mk.injEq] at heq
    rw [Option.some.injEq] at heq
    rw [← heq.2] at hp
    exact hacc p hp
  | case2 n cursor acc trace h0 e he =>
    intro hacc tr m heq p hp
    rw [fetchConversationLoop, dif_neg h0] at heq
    simp only [he, Prod.mk.injEq] at heq
    exact absurd heq.2.symm (Option.some_ne_none m)
  | case3 n cursor acc trace h0 chunk nextCursor hget hbreak =>
    intro hacc tr m heq p hp
    rw [fetchConversationLoop, dif_neg h0] at heq
    simp only [hget, dif_pos hbreak, Prod.mk.injEq, Option.some.injEq] at heq
    rw [← heq.2] at hp
    rcases mem_insertChunk hp with h1 | ⟨ch, _, hskip, hp2⟩
    · exact hacc p h1
    · subst hp2
      exact ⟨hskip, rfl⟩
  | case4 n cursor acc trace h0 chunk nextCursor hget hbreak ih =>
    intro hacc tr m heq p hp
    rw [fetchConversationLoop, dif_neg h0] at heq
    simp only [hget, dif_neg hbreak] at heq
    refine ih ?_ heq p hp
    intro q hq
    rcases mem_insertChunk hq with h1 | ⟨ch, _, hskip, hq2⟩
    · exact hacc q h1
    · subst hq2
      exact ⟨hskip, rfl⟩

/-- Actions recorded by the fetch loop are conversation-list fetches, apart
from the actions already present on the incoming trace. -/
theorem fetchConversationLoop_trace
    (get : String → Nat → Except String (List SlackChannel × String)) :
    ∀ (n : Nat) (cursor : String) (acc : List (String × SlackChannel))
      (trace : List SyncAction),
    ∀ a ∈ (fetchConversationLoop get n cursor acc trace).1,
    a ∈ trace ∨ ∃ c l, a = SyncAction.fetchConversations c l := by
  intro n cursor acc trace
  induction n, cursor, acc, trace using fetchConversationLoop.induct get with
  | case1 cursor acc trace =>
    intro a ha
    rw [fetchConversationLoop, dif_pos rfl] at ha
    exact Or.inl ha
  | case2 n cursor acc trace h0 e he =>
    intro a ha
    rw [fetchConversationLoop, dif_neg h0] at ha
    simp only [he] at ha
    rcases List.mem_append.mp ha with h1 | h1
    · exact Or.inl h1
    · exact Or.inr ⟨_, _, List.mem_singleton.mp h1⟩
  | case3 n cursor acc trace h0 chunk nextCursor hget hbreak =>
    intro a ha
    rw [fetchConversationLoop, dif_neg h0] at ha
    simp only [hget, dif_pos hbreak] at ha
    rcases List.mem_append.mp ha with h1 | h1
    · exact Or.inl h1
    · exact Or.inr ⟨_, _, List.mem_singleton.mp h1⟩
  | case4 n cursor acc trace h0 chunk nextCursor hget hbreak ih =>
    intro a ha
    rw [fetchConversationLoop, dif_neg h0] at ha
    simp only [hget, dif_neg hbreak] at ha
    rcases ih a ha with h1 | h1
    · rcases List.mem_append.mp h1 with h2 | h2
      · exact Or.inl h2
      · exact Or.inr ⟨_, _, List.mem_singleton.mp h2⟩
    · exact Or.inr h1

/-- The incoming trace survives the fetch loop. -/
theorem fetchConversationLoop_trace_mono
    (get : String → Nat → Except String (List SlackChannel × String)) :
    ∀ (n : Nat) (cursor : String) (acc : List (String × SlackChannel))
      (trace : List SyncAction),
    ∀ a ∈ trace, a ∈ (fetchConversationLoop get n cursor acc trace).1 := by
  intro n cursor acc trace
  induction n, cursor, acc, trace using fetchConversationLoop.induct get with
  | case1 cursor acc trace =>
    intro a ha
    rw [fetchConversationLoop, dif_pos rfl]
    exact ha
  | case2 n cursor acc trace h0 e he =>
    intro a ha
    rw [fetchConversationLoop, dif_neg h0]
    simp only [he]
    exact List.mem_append.mpr (Or.inl ha)
  | case3 n cursor acc trace h0 chunk nextCursor hget hbreak =>
    intro a ha
    rw [fetchConversationLoop, dif_neg h0]
    simp only [hget, dif_pos hbreak]
    exact List.mem_append.mpr (Or.inl ha)
  | case4 n cursor acc trace h0 chunk nextCursor hget hbreak ih =>
    intro a ha
    rw [fetchConversationLoop, dif_neg h0]
    simp only [hget, dif_neg hbreak]
    exact ih a (List.mem_append.mpr (Or.inl ha))

/-- When the remaining limit is positive, the fetch loop records a
conversation-list fetch at the incoming cursor. -/
theorem fetchConversationLoop_fetches
    (get : String → Nat → Except String (List SlackChannel × String))
    (n : Nat) (cursor : String) (acc : List (String × SlackChannel))
    (trace : List SyncAction) (hn : n ≠ 0) :
    SyncAction.fetchConversations cursor (reqLimitOf n) ∈
      (fetchConversationLoop get n cursor acc trace).1 := by
  rw [fetchConversationLoop, dif_neg hn]
  rcases hget : get cursor (reqLimitOf n) with e | ⟨chunk, nextCursor⟩
  · exact List.mem_append.mpr (Or.inr (List.mem_singleton.mpr rfl))
  · by_cases hbreak : nextCursor = "" ∨ chunk = []
    · simp only [dif_pos hbreak]
      exact List.mem_append.mpr (Or.inr (List.mem_singleton.mpr rfl))
    · simp only [dif_neg hbreak]
      exact fetchConversationLoop_trace_mono get _ _ _ _ _
        (List.mem_append.mpr (Or.inr (List.mem_singleton.mpr rfl)))

theorem refreshStep_map_subset (env : SyncEnv)
    (acc : List (String × SlackChannel) × List SyncAction) (up : PortalKey)
    {p : String × SlackChannel} (h : p ∈ (refreshStep env acc up).1) : p ∈ acc.1 := by
  by_cases hch : (ParsePortalID up.id).2 = ""
  · simp only [refreshStep, if_pos hch] at h
    exact h
  · rcases hp : env.getExistingPortal up with e | portal
    · simp only [refreshStep, if_neg hch, hp] at h
      exact h
    · by_cases hmx : portal.mxid ≠ ""
      · simp only [refreshStep, if_neg hch, hp, if_pos hmx] at h
        exact List.mem_of_mem_filter h
      · simp only [refreshStep, if_neg hch, hp, if_neg hmx] at h
        exact h

theorem refreshFold_map_subset (env : SyncEnv) :
    ∀ (ups : List PortalKey) (acc : List (String × SlackChannel) × List SyncAction)
      {p : String × SlackChannel},
    p ∈ (ups.foldl (refreshStep env) acc).1 → p ∈ acc.1 := by
  intro ups
  induction ups with
  | nil => intro acc p h; exact h
  | cons up ups ih =>
    intro acc p h
    rw [List.foldl_cons] at h
    exact refreshStep_map_subset env acc up (ih _ h)

/-- Once a materialized channel's key is removed by its own refresh step, it
stays absent from the candidate map for the rest of the pass. -/
theorem refreshFold_removes (env : SyncEnv) :
    ∀ (ups : List PortalKey) (acc : List (String × SlackChannel) × List SyncAction)
      (up : PortalKey), up ∈ ups → isMaterialized env up = true →
    ∀ v, ((ParsePortalID up.id).2, v) ∉ (ups.foldl (refreshStep env) acc).1 := by
  intro ups
  induction ups with
  | nil => intro acc up hup; cases hup
  | cons up0 ups ih =>
    intro acc up hup hmat v hv
    rw [List.foldl_cons] at hv
    rcases List.mem_cons.mp hup with rfl | hup2
    · have hstep : ∀ w, ((ParsePortalID up.id).2, w) ∉ (refreshStep env acc up).1 := by
        intro w hw
        have hm := (Bool.and_eq_true _ _).mp (isMaterialized.eq_def env up ▸ hmat)
        have hch : (ParsePortalID up.id).2 ≠ "" := by
          have := hm.1
          simpa [bne_iff_ne] using this
        rcases hp : env.getExistingPortal up with e | portal
        · rw [hp] at hm
          simp at hm
        · have hmx : portal.mxid ≠ "" := by
            have h2 := hm.2
            rw [hp] at h2
            simpa [bne_iff_ne] using h2
          simp only [refreshStep, if_neg hch, hp, if_pos hmx] at hw
          have := (List.mem_filter.mp hw).2
          simp at this
      exact hstep v (refreshFold_map_subset env ups _ hv)
    · exact ih _ up hup2 hmat v hv

/-- Actions recorded by the refresh pass are metadata refreshes, apart from
the actions already present on the incoming trace. -/
theorem refreshFold_actions (env : SyncEnv) :
    ∀ (ups : List PortalKey) (acc : List (String × SlackChannel) × List SyncAction)
      {a : SyncAction},
    a ∈ (ups.foldl (refreshStep env) acc).2 →
    a ∈ acc.2 ∨ ∃ cid, a = SyncAction.refreshPortal cid := by
  intro ups
  induction ups with
  | nil => intro acc a h; exact Or.inl h
  | cons up ups ih =>
    intro acc a h
    rw [List.foldl_cons] at h
    rcases ih _ h with h1 | h1
    · by_cases hch : (ParsePortalID up.id).2 = ""
      · simp only [refreshStep, if_pos hch] at h1
        exact Or.inl h1
      · rcases hp : env.getExistingPortal up with e | portal
        · simp only [refreshStep, if_neg hch, hp] at h1
          exact Or.inl h1
        · by_cases hmx : portal.mxid ≠ ""
          · rcases hc : env.getChatInfo portal with e | u
            · simp only [refreshStep, if_neg hch, hp, if_pos hmx, hc] at h1
              exact Or.inl h1
            · simp only [refreshStep, if_neg hch, hp, if_pos hmx, hc] at h1
              rcases List.mem_append.mp h1 with h2 | h2
              · exact Or.inl h2
              · exact Or.inr ⟨_, List.mem_singleton.mp h2⟩
          · simp only [refreshStep, if_neg hch, hp, if_neg hmx] at h1
            exact Or.inl h1
    · exact Or.inr h1

/-- The incoming trace survives the refresh pass. -/
theorem refreshFold_trace_mono (env : SyncEnv) :
    ∀ (ups : List PortalKey) (acc : List (String × SlackChannel) × List SyncAction)
      {a : SyncAction}, a ∈ acc.2 → a ∈ (ups.foldl (refreshStep env) acc).2 := by
  intro ups
  induction ups with
  | nil => intro acc a h; exact h
  | cons up ups ih =>
    intro acc a h
    rw [List.foldl_cons]
    refine ih _ ?_
    by_cases hch : (ParsePortalID up.id).2 = ""
    · simp only [refreshStep, if_pos hch]
      exact h
    · rcases hp : env.getExistingPortal up with e | portal
      · simp only [refreshStep, if_neg hch, hp]
        exact h
      · by_cases hmx : portal.mxid ≠ ""
        · rcases hc : env.getChatInfo portal with e | u
          · simp only [refreshStep, if_neg hch, hp, if_pos hmx, hc]
            exact h
          · simp only [refreshStep, if_neg hch, hp, if_pos hmx, hc]
            exact List.mem_append.mpr (Or.inl h)
        · simp only [refreshStep, if_neg hch, hp, if_neg hmx]
          exact h

/-- A materialized portal whose chat-info fetch succeeds contributes its
refresh action to the pass's trace. -/
theorem refreshFold_refreshes (env : SyncEnv) :
    ∀ (ups : List PortalKey) (acc : List (String × SlackChannel) × List SyncAction)
      (up : PortalKey) (portal : Portal),
    up ∈ ups → (ParsePortalID up.id).2 ≠ "" →
    env.getExistingPortal up = .ok portal → portal.mxid ≠ "" →
    env.getChatInfo portal = .ok () →
    SyncAction.refreshPortal (ParsePortalID up.id).2 ∈ (ups.foldl (refreshStep env) acc).2 := by
  intro ups
  induction ups with
  | nil => intro acc up portal hup; cases hup
  | cons up0 ups ih =>
    intro acc up portal hup hch hp hmx hc
    rw [List.foldl_cons]
    rcases List.mem_cons.mp hup with rfl | hup2
    · refine refreshFold_trace_mono env ups _ ?_
      simp only [refreshStep, if_neg hch, hp, if_pos hmx, hc]
      exact List.mem_append.mpr (Or.inr (List.mem_singleton.mpr rfl))
    · exact ih _ up portal hup2 hch hp hmx hc

theorem createdChannels_append (t1 t2 : List SyncAction) :
    createdChannels (t1 ++ t2) = createdChannels t1 ++ createdChannels t2 := by
  unfold createdChannels
  exact List.filterMap_append _ _ _

/-- The creation pass attempts a room creation exactly for the remaining
channels whose portal lookup succeeds, in their incoming order. -/
theorem createPass_channels (env : SyncEnv) (s : SlackClientState) :
    ∀ (remaining : List SlackChannel) (trace : List SyncAction),
    createdChannels (remaining.foldl (createStep env s) trace) =
      createdChannels trace ++ remaining.filter (portalFetchOk env s) := by
  intro remaining
  induction remaining with
  | nil => intro trace; simp
  | cons ch remaining ih =>
    intro trace
    rw [List.foldl_cons]
    rcases hp : env.getPortal (makePortalKey s ch) with e | portal
    · have hstep : createStep env s trace ch = trace := by
        unfold createStep
        rw [hp]
      have hfilter : (ch :: remaining).filter (portalFetchOk env s) =
          remaining.filter (portalFetchOk env s) := by
        rw [List.filter_cons]
        have : portalFetchOk env s ch = false := by
          unfold portalFetchOk
          rw [hp]
        simp [this]
      rw [hstep, ih, hfilter]
    · have hstep : createStep env s trace ch = trace ++ [.createRoom ch] := by
        unfold createStep
        rw [hp]
      have hfilter : (ch :: remaining).filter (portalFetchOk env s) =
          ch :: remaining.filter (portalFetchOk env s) := by
        rw [List.filter_cons]
        have : portalFetchOk env s ch = true := by
          unfold portalFetchOk
          rw [hp]
        simp [this]
      rw [hstep, ih, hfilter, createdChannels_append]
      simp [createdChannels]

instance lastReadLE_total : IsTotal SlackChannel (fun a b => a.lastRead ≤ b.lastRead) :=
  ⟨fun a b => le_total a.lastRead b.lastRead⟩

instance lastReadLE_trans : IsTrans SlackChannel (fun a b => a.lastRead ≤ b.lastRead) :=
  ⟨fun _ _ _ hab hbc => le_trans hab hbc⟩

theorem createdChannels_fetchLoop_nil
    (get : String → Nat → Except String (List SlackChannel × String))
    (n : Nat) (cursor : String) (acc : List (String × SlackChannel)) :
    createdChannels (fetchConversationLoop get n cursor acc []).1 = [] := by
  unfold createdChannels
  rw [List.filterMap_eq_nil_iff]
  intro a ha
  rcases fetchConversationLoop_trace get n cursor acc [] a ha with h1 | ⟨c, l, rfl⟩
  · cases h1
  · rfl

theorem createdChannels_refreshPass_nil (env : SyncEnv)
    (m : List (String × SlackChannel)) (ups : List PortalKey) :
    createdChannels (refreshPass env m ups).2 = [] := by
  unfold createdChannels
  rw [List.filterMap_eq_nil_iff]
  intro a ha
  rcases refreshFold_actions env ups (m, []) ha with h1 | ⟨cid, rfl⟩
  · cases h1
  · rfl

/-- C4: channel reconciliation never admits a skipped (non-open DM)
conversation as a creation candidate; it fetches the conversation list when
the token allows; it refreshes each materialized existing room (when its
chat-info fetch succeeds) and removes it from the candidate set so no room is
created for it; and the rooms it does create are visited in ascending
last-read order. -/
theorem syncChannels_reconciliation (env : SyncEnv) (s : SlackClientState) (n : Nat) :
    (strStartsWith s.token "xoxs" = false → n ≠ 0 →
      SyncAction.fetchConversations "" (reqLimitOf n) ∈ SyncChannels env s n) ∧
    (∀ ch ∈ createdChannels (SyncChannels env s n), skipChannel ch = false) ∧
    (∀ tr m ups up portal, fetchOutcome env s n = (tr, some m) →
      env.userPortals = .ok ups → up ∈ ups → (ParsePortalID up.id).2 ≠ "" →
      env.getExistingPortal up = .ok portal → portal.mxid ≠ "" →
      env.getChatInfo portal = .ok () →
      SyncAction.refreshPortal (ParsePortalID up.id).2 ∈ SyncChannels env s n) ∧
    (∀ ups up, env.userPortals = .ok ups → up ∈ ups → isMaterialized env up = true →
      ∀ ch ∈ createdChannels (SyncChannels env s n), ch.id ≠ (ParsePortalID up.id).2) ∧
    List.Sorted (fun a b => a.lastRead ≤ b.lastRead) (createdChannels (SyncChannels env s n)) := by
  rcases hf : fetchOutcome env s n with ⟨tr, mo⟩
  rcases mo with _ | m
  · -- the fetch phase failed: the sync is just the fetch trace
    have hsync : SyncChannels env s n = tr := by
      simp only [SyncChannels, hf]
    have hx : strStartsWith s.token "xoxs" = false := by
      by_cases hx : strStartsWith s.token "xoxs" = true
      · have : fetchOutcome env s n = ([], some []) := by
          simp [fetchOutcome, hx]
        rw [hf] at this
        cases this
      · simpa using hx
    have hloop : fetchConversationLoop env.getConversations n "" [] [] = (tr, none) := by
      have : fetchOutcome env s n =
          fetchConversationLoop env.getConversations n "" [] [] := by
        simp [fetchOutcome, hx]
      rw [this] at hf
      exact hf
    have hnil : createdChannels (SyncChannels env s n) = [] := by
      rw [hsync]
      have := createdChannels_fetchLoop_nil env.getConversations n "" []
      rw [hloop] at this
      exact this
    refine ⟨?_, ?_, ?_, ?_, ?_⟩
    · intro _ hn
      rw [hsync]
      have := fetchConversationLoop_fetches env.getConversations n "" [] [] hn
      rw [hloop] at this
      exact this
    · intro ch hch
      rw [hnil] at hch
      cases hch
    · intro tr2 m2 ups up portal hf2 _ _ _ _ _ _
      simp at hf2
    · intro ups up _ _ _ ch hch
      rw [hnil] at hch
      cases hch
    · rw [hnil]
      exact List.sorted_nil
  · -- the fetch phase produced a candidate map
    have hgood : ∀ p ∈ m, skipChannel p.2 = false ∧ p.1 = p.2.id := by
      by_cases hx : strStartsWith s.token "xoxs" = true
      · have : fetchOutcome env s n = ([], some []) := by
          simp [fetchOutcome, hx]
        rw [hf] at this
        rw [Prod.mk.injEq, Option.some.injEq] at this
        rw [this.2]
        intro p hp
        cases hp
      · have hx2 : strStartsWith s.token "xoxs" = false := by simpa using hx
        have hloop : fetchConversationLoop env.getConversations n "" [] [] = (tr, some m) := by
          have : fetchOutcome env s n =
              fetchConversationLoop env.getConversations n "" [] [] := by
            simp [fetchOutcome, hx2]
          rw [this] at hf
          exact hf
        exact fetchConversationLoop_entries env.getConversations n "" [] []
          (by intro p hp; cases hp) hloop
    rcases hup : env.userPortals with e | ups
    · -- the user-portal fetch failed: the sync is just the fetch trace
      have hsync : SyncChannels env s n = tr := by
        simp only [SyncChannels, hf, hup]
      have hnil : createdChannels (SyncChannels env s n) = [] := by
        rw [hsync]
        by_cases hx : strStartsWith s.token "xoxs" = true
        · have : fetchOutcome env s n = ([], some []) := by
            simp [fetchOutcome, hx]
          rw [hf] at this
          rw [Prod.mk.injEq] at this
          rw [this.1]
          rfl
        · have hx2 : strStartsWith s.token "xoxs" = false := by simpa using hx
          have hloop : fetchConversationLoop env.getConversations n "" [] [] = (tr, some m) := by
            have : fetchOutcome env s n =
                fetchConversationLoop env.getConversations n "" [] [] := by
              simp [fetchOutcome, hx2]
            rw [this] at hf
            exact hf
          have := createdChannels_fetchLoop_nil env.getConversations n "" []
          rw [hloop] at this
          exact this
      refine ⟨?_, ?_, ?_, ?_, ?_⟩
      · intro hx hn
        rw [hsync]
        have hloop : fetchConversationLoop env.getConversations n "" [] [] = (tr, some m) := by
          have : fetchOutcome env s n =
              fetchConversationLoop env.getConversations n "" [] [] := by
            simp [fetchOutcome, hx]
          rw [this] at hf
          exact hf
        have := fetchConversationLoop_fetches env.getConversations n "" [] [] hn
        rw [hloop] at this
        exact this
      · intro ch hch
        rw [hnil] at hch
        cases hch
      · intro tr2 m2 ups2 up portal hf2 hup2 _ _ _ _ _
        simp at hup2
      · intro ups2 up hup2 _ _ ch hch
        rw [hnil] at hch
        cases hch
      · rw [hnil]
        exact List.sorted_nil
    · -- the full pipeline runs
      have hsync : SyncChannels env s n =
          tr ++ (refreshPass env m ups).2 ++ createPass env s
            (List.insertionSort (fun a b => a.lastRead ≤ b.lastRead)
              ((refreshPass env m ups).1.map Prod.snd)) := by
        simp only [SyncChannels, hf, hup]
      have htrnil : createdChannels tr = [] := by
        by_cases hx : strStartsWith s.token "xoxs" = true
        · have : fetchOutcome env s n = ([], some []) := by
            simp [fetchOutcome, hx]
          rw [hf] at this
          rw [Prod.mk.injEq] at this
          rw [this.1]
          rfl
        · have hx2 : strStartsWith s.token "xoxs" = false := by simpa using hx
          have hloop : fetchConversationLoop env.getConversations n "" [] [] = (tr, some m) := by
            have : fetchOutcome env s n =
                fetchConversationLoop env.getConversations n "" [] [] := by
              simp [fetchOutcome, hx2]
            rw [this] at hf
            exact hf
          have := createdChannels_fetchLoop_nil env.getConversations n "" []
          rw [hloop] at this
          exact this
      have hcc : createdChannels (SyncChannels env s n) =
          (List.insertionSort (fun a b => a.lastRead ≤ b.lastRead)
            ((refreshPass env m ups).1.map Prod.snd)).filter (portalFetchOk env s) := by
        rw [hsync, createdChannels_append, createdChannels_append, htrnil,
          createdChannels_refreshPass_nil]
        have := createPass_channels env s
          (List.insertionSort (fun a b => a.lastRead ≤ b.lastRead)
            ((refreshPass env m ups).1.map Prod.snd)) []
        unfold createPass
        rw [this]
        rfl
      have hmem : ∀ ch ∈ createdChannels (SyncChannels env s n),
          ∃ p ∈ (refreshPass env m ups).1, p.2 = ch := by
        intro ch hch
        rw [hcc] at hch
        have h1 := List.mem_of_mem_filter hch
        rw [List.mem_insertionSort] at h1
        exact List.mem_map.mp h1
      refine ⟨?_, ?_, ?_, ?_, ?_⟩
      · intro hx hn
        rw [hsync]
        have hloop : fetchConversationLoop env.getConversations n "" [] [] = (tr, some m) := by
          have : fetchOutcome env s n =
              fetchConversationLoop env.getConversations n "" [] [] := by
            simp [fetchOutcome, hx]
          rw [this] at hf
          exact hf
        have := fetchConversationLoop_fetches env.getConversations n "" [] [] hn
        rw [hloop] at this
        exact List.mem_append.mpr (Or.inl (List.mem_append.mpr (Or.inl this)))
      · intro ch hch
        rcases hmem ch hch with ⟨p, hp, hpch⟩
        have := hgood p (refreshFold_map_subset env ups (m, []) hp)
        rw [← hpch]
        exact this.1
      · intro tr2 m2 ups2 up portal hf2 hup2 hupmem hch2 hport hmx hinfo
        rw [Except.ok.injEq] at hup2
        subst hup2
        rw [hsync]
        refine List.mem_append.mpr (Or.inl (List.mem_append.mpr (Or.inr ?_)))
        exact refreshFold_refreshes env ups (m, []) up portal hupmem hch2 hport hmx hinfo
      · intro ups2 up hup2 hupmem hmat ch hch hid
        rw [Except.ok.injEq] at hup2
        subst hup2
        rcases hmem ch hch with ⟨p, hp, hpch⟩
        have hgp := hgood p (refreshFold_map_subset env ups (m, []) hp)
        have hpeq : p = ((ParsePortalID up.id).2, ch) := by
          rw [← hid]
          rw [Prod.ext_iff]
          exact ⟨by rw [hgp.2, hpch], hpch⟩
        rw [hpeq] at hp
        exact refreshFold_removes env ups (m, []) up hupmem hmat ch hp
      · rw [hcc]
        refine List.Pairwise.filter _ ?_
        exact List.sorted_insertionSort _ _

/-- C10: with a stored legacy `xoxs` token the conversation list is never
fetched, so the candidate set is empty: the sync performs only metadata
refreshes of already-materialized rooms and never creates a local room. -/
theorem xoxs_token_skips_channel_creation (env : SyncEnv) (s : SlackClientState)
    (n : Nat) (h : strStartsWith s.token "xoxs" = true) :
    (∀ a ∈ SyncChannels env s n, ∃ cid, a = SyncAction.refreshPortal cid) ∧
    createdChannels (SyncChannels env s n) = [] := by
  have hf : fetchOutcome env s n = ([], some []) := by
    simp [fetchOutcome, h]
  rcases hup : env.userPortals with e | ups
  · have hsync : SyncChannels env s n = [] := by
      simp only [SyncChannels, hf, hup]
    rw [hsync]
    exact ⟨fun a ha => absurd ha (List.not_mem_nil a), rfl⟩
  · have hsync : SyncChannels env s n =
        [] ++ (refreshPass env [] ups).2 ++ createPass env s
          (List.insertionSort (fun a b => a.lastRead ≤ b.lastRead)
            ((refreshPass env [] ups).1.map Prod.snd)) := by
      simp only [SyncChannels, hf, hup]
    have hmapnil : (refreshPass env [] ups).1 = [] := by
      refine List.eq_nil_iff_forall_not_mem.mpr ?_
      intro p hp
      exact absurd (refreshFold_map_subset env ups ([], []) hp) (List.not_mem_nil p)
    have hcreate : createPass env s
        (List.insertionSort (fun a b => a.lastRead ≤ b.lastRead)
          ((refreshPass env [] ups).1.map Prod.snd)) = [] := by
      rw [hmapnil]
      rfl
    rw [hsync, hcreate]
    simp only [List.nil_append, List.append_nil]
    constructor
    · intro a ha
      rcases refreshFold_actions env ups ([], []) ha with h1 | h1
      · cases h1
      · exact h1
    · exact createdChannels_refreshPass_nil env [] ups

/-- Concrete channels and environment for the reconciliation
instantiations: two regular channels (one already materialized locally), plus
a direct message with no visible first message. -/
def chanC1 : SlackChannel :=
  { id := "C1", isIM := false, latest := none, lastRead := "b" }

def chanC2 : SlackChannel :=
  { id := "C2", isIM := false, latest := none, lastRead := "a" }

def chanD1 : SlackChannel :=
  { id := "D1", isIM := true, latest := none, lastRead := "c" }

def envSync : SyncEnv where
  getConversations := fun _ _ => .ok ([chanC1, chanC2, chanD1], "")
  userPortals := .ok [{ id := "T1-C1", receiver := "T1-U1" }]
  getExistingPortal := fun k =>
    if k.id = "T1-C1" then .ok { key := k, mxid := "room1" } else .error "not found"
  getChatInfo := fun _ => .ok ()
  getPortal := fun k => .ok { key := k, mxid := "" }

/-- A live session holding a legacy `xoxs` token. -/
def xoxsState : SlackClientState :=
  { userID := "U1", teamID := "T1", loginID := "T1-U1", clientConnected := true,
    rtmConnected := true, token := "xoxs-1", cookieToken := "d-1", isRealUser := true }

/-- Concrete instantiation of the reconciliation theorem. -/
theorem syncChannels_reconciliation_witness :
    (strStartsWith puppetState.token "xoxs" = false → (5 : Nat) ≠ 0 →
      SyncAction.fetchConversations "" (reqLimitOf 5) ∈ SyncChannels envSync puppetState 5) ∧
    (∀ ch ∈ createdChannels (SyncChannels envSync puppetState 5), skipChannel ch = false) ∧
    (∀ tr m ups up portal, fetchOutcome envSync puppetState 5 = (tr, some m) →
      envSync.userPortals = .ok ups → up ∈ ups → (ParsePortalID up.id).2 ≠ "" →
      envSync.getExistingPortal up = .ok portal → portal.mxid ≠ "" →
      envSync.getChatInfo portal = .ok () →
      SyncAction.refreshPortal (ParsePortalID up.id).2 ∈ SyncChannels envSync puppetState 5) ∧
    (∀ ups up, envSync.userPortals = .ok ups → up ∈ ups → isMaterialized envSync up = true →
      ∀ ch ∈ createdChannels (SyncChannels envSync puppetState 5),
        ch.id ≠ (ParsePortalID up.id).2) ∧
    List.Sorted (fun a b => a.lastRead ≤ b.lastRead)
      (createdChannels (SyncChannels envSync puppetState 5)) :=
  syncChannels_reconciliation envSync puppetState 5

/-- Concrete instantiation of the xoxs-token theorem. -/
theorem xoxs_token_skips_channel_creation_witness :
    (∀ a ∈ SyncChannels envSync xoxsState 5, ∃ cid, a = SyncAction.refreshPortal cid) ∧
    createdChannels (SyncChannels envSync xoxsState 5) = [] :=
  xoxs_token_skips_channel_creation envSync xoxsState 5 (by decide)

end SlackBridge
